import Mathlib

set_option autoImplicit false

/-!
Shallow embedding of `cookie_manager.py` (single-file YouTube cookie manager).

The browser engine, the filesystem and the environment are external
collaborators; each effectful call the program makes is resolved by an
oracle field of a `World` record, so every theorem quantifies over all
behaviours the outside world can exhibit.  Pure computations (cookie
filtering and normalization, the store-validity check, the branch
structure of every function) are translated directly from the source.
-/

/-! ## String primitives

Python `needle in hay` is substring containment and `s.lower()` maps
ASCII letters to lower case (the URLs and markers involved are ASCII). -/

def charLower (c : Char) : Char :=
  if 65 ≤ c.toNat ∧ c.toNat ≤ 90 then Char.ofNat (c.toNat + 32) else c

def strLower (s : String) : String := ⟨s.data.map charLower⟩

def listContainsSub (n : List Char) : List Char → Bool
  | [] => n.isEmpty
  | a :: t => n.isPrefixOf (a :: t) || listContainsSub n t

/-- Python `needle in hay` on strings. -/
def strContains (needle hay : String) : Bool :=
  listContainsSub needle.data hay.data

/-! ## Configuration constants (lines 38-42 of the source) -/

def COOKIES_FILE : String := "cookies.json"

def LOGIN_TIMEOUT : Nat := 60

def REFRESH_INTERVAL : Nat := 12 * 60 * 60

/-! ## JSON values and the store-validity check (`check_cookies_file`)

`json.load` yields a Python value; `len` is defined on strings, lists and
dicts (dict keys already deduplicated by the parser) and raises
`TypeError` on numbers, booleans and `null` — the surrounding
`try/except` turns that into `False`. -/

inductive Json
  | null
  | bool (b : Bool)
  | num (n : Int)
  | str (s : String)
  | arr (xs : List Json)
  | obj (fields : List (String × Json))

/-- Python `len` on a parsed JSON value: `some` length for values with a
length, `none` when `len()` raises `TypeError`. -/
def jsonLen : Json → Option Nat
  | .null => none
  | .bool _ => none
  | .num _ => none
  | .str s => some s.length
  | .arr xs => some xs.length
  | .obj fields => some fields.length

/-- Outcome of trying to read and parse the store file, as observed by
`check_cookies_file`: the file may be missing (`os.path.exists` false),
unreadable (`open`/`read` raises), malformed (`json.load` raises), or
parsed to a value. -/
inductive FileRead
  | missing
  | ioError
  | unparsable
  | parsed (v : Json)

/-- `check_cookies_file` (source lines 389-405): returns `False` on a
missing file; otherwise loads the JSON and returns `len(cookies) > 0`;
any exception (I/O, parse, or `len` on a length-less value) is caught
and returns `False`. -/
def check_cookies_file : FileRead → Bool
  | .missing => false
  | .ioError => false
  | .unparsable => false
  | .parsed v =>
    match jsonLen v with
    | none => false
    | some n => decide (0 < n)

/-! ## Cookies and the extractor's filter/normalization

A raw cookie is a Playwright cookie dict: `name`, `value`, `domain` are
accessed with mandatory indexing, the rest with `.get(key, default)`,
so the latter are optional fields here. -/

structure RawCookie where
  name : String
  value : String
  domain : String
  path : Option String
  expires : Option Int
  httpOnly : Option Bool
  secure : Option Bool
  sameSite : Option String
deriving DecidableEq

structure PersistedCookie where
  name : String
  value : String
  domain : String
  path : String
  expires : Int
  httpOnly : Bool
  secure : Bool
  sameSite : String
deriving DecidableEq

/-- The domain substrings tested on line 239 of the source. -/
def targetDomains : List String :=
  [".youtube.com", ".google.com", "youtube.com", "google.com"]

/-- The filter condition of line 239: `any(domain in cookie['domain'] for
domain in [...])`. -/
def isTargetCookie (c : RawCookie) : Bool :=
  targetDomains.any (fun d => strContains d c.domain)

/-- The dict built on lines 241-250: mandatory fields copied, optional
fields defaulted (`path` to "/", `expires` to -1, `httpOnly`/`secure` to
false, `sameSite` to "no_restriction"). -/
def normalizeCookie (c : RawCookie) : PersistedCookie :=
  { name := c.name
    value := c.value
    domain := c.domain
    path := c.path.getD "/"
    expires := c.expires.getD (-1)
    httpOnly := c.httpOnly.getD false
    secure := c.secure.getD false
    sameSite := c.sameSite.getD "no_restriction" }

/-- The `youtube_cookies` list built by the loop on lines 236-250:
filter to target domains, normalize each survivor. -/
def youtubeCookiesOf (cookies : List RawCookie) : List PersistedCookie :=
  (cookies.filter isTargetCookie).map normalizeCookie

/-! ## Observable events and the store state

Events record the side effects the claims talk about: browser
acquisition, the navigations and form fills of the login flow, store
writes and teardown.  `print` output is recorded as `logLine`.  The
text a caught exception contributes to a diagnostic is supplied by the
world (`excMsg`). -/

inductive Event
  | browserLaunch
  | gotoLogin
  | fillEmail (e : String)
  | fillPassword (p : String)
  | gotoYoutube
  | storeOpenTrunc
  | storeWrite (cs : List PersistedCookie)
  | pageClose
  | browserClose
  | logLine (s : String)
deriving DecidableEq

/-- Contents of the store file: arbitrary pre-existing bytes, a complete
`json.dump` of a cookie list, or the truncated remains of a `json.dump`
that raised partway (the `open(..., 'w')` already truncated in place). -/
inductive StoreContent
  | raw (bytes : String)
  | fullDump (cs : List PersistedCookie)
  | truncatedDump (cs : List PersistedCookie)
deriving DecidableEq

/-- The store file: `none` when absent. -/
abbrev Store := Option StoreContent

/-- Result of running an operation: returned boolean, final store file,
event trace. -/
structure RunOut where
  res : Bool
  store : Store
  evs : List Event
deriving DecidableEq

/-- Oracle for one execution: environment variables and the outcome of
every external call the code makes.  Each `...Ok` field resolves one
group of browser/filesystem calls (false = that call raises or times
out); `currentUrl`/`pageContent`/`cookies` are the values the browser
returns; `excMsg` is the text of whichever exception is caught. -/
structure World where
  email : Option String
  password : Option String
  launchOk : Bool
  gotoLoginOk : Bool
  emailStepOk : Bool
  passStepOk : Bool
  resultWaitOk : Bool
  currentUrl : String
  pageContent : String
  navGotoOk : Bool
  avatarFound : Bool
  signInFound : Bool
  cookiesReadOk : Bool
  cookies : List RawCookie
  openOk : Bool
  dumpOk : Bool
  pageCloseRaises : Bool
  browserCloseRaises : Bool
  excMsg : String
deriving DecidableEq

/-- Python truthiness test `not s` for an optional string: true on unset
or empty. -/
def falsyStr : Option String → Bool
  | none => true
  | some s => decide (s = "")

/-! ## Log line templates (the `print` calls of the source) -/

def loginBanner (e : String) : String := "🔐 Logging into Gmail with " ++ e ++ "..."

def gmailFailLog (m : String) : String := "⚠️ Gmail login failed: " ++ m

def gmailOkLog : String := "✅ Gmail login successful"

def twoFALog : String :=
  "⚠️ 2FA verification required. Please use App Password instead of regular password."

def alreadyAuthLog : String := "✅ Login successful (already authenticated)"

def ambigLog (u : String) : String := "⚠️ Login may have failed. Current URL: " ++ u

def navBanner : String := "🔄 Navigating to YouTube..."

def navFailLog (m : String) : String := "⚠️ Failed to navigate to YouTube: " ++ m

def ytOkLog : String := "✅ Successfully logged into YouTube"

def notLoggedLog : String := "⚠️ Not logged into YouTube - found sign-in button"

def assumeLoggedLog : String := "✅ Appears to be logged into YouTube"

def extractBanner : String := "🍪 Extracting cookies..."

def noCookiesLog : String := "⚠️ No cookies found"

def noYtCookiesLog : String := "⚠️ No YouTube-related cookies found"

def savedLog (n : Nat) : String :=
  "✅ Saved " ++ toString n ++ " cookies to " ++ COOKIES_FILE

def extractFailLog (m : String) : String := "⚠️ Failed to extract cookies: " ++ m

def missingCredLog : String :=
  "⚠️ Missing credentials: Set YOUTUBE_EMAIL and YOUTUBE_PASSWORD environment variables"

def launchFailLog (m : String) : String := "⚠️ Failed to start browser: " ++ m

def closeErrLog (m : String) : String := "⚠️ Error closing browser: " ++ m

def refreshOkLog : String := "🔄 Cookies refreshed successfully"

def refreshFailLog : String := "⚠️ Cookie refresh failed"

def refreshErrLog (m : String) : String := "⚠️ Cookie refresh error: " ++ m

/-! ## Browser teardown (`close_browser`, lines 104-112)

One `try` wraps both closes; `except` logs and returns normally.  The
returned flag is whether an exception escapes to the caller. -/

def close_browser (hasPage hasBrowser pageCloseRaises browserCloseRaises : Bool)
    (excMsg : String) : List Event × Bool :=
  if hasPage then
    if pageCloseRaises then ([.pageClose, .logLine (closeErrLog excMsg)], false)
    else if hasBrowser then
      if browserCloseRaises then
        ([.pageClose, .browserClose, .logLine (closeErrLog excMsg)], false)
      else ([.pageClose, .browserClose], false)
    else ([.pageClose], false)
  else if hasBrowser then
    if browserCloseRaises then ([.browserClose, .logLine (closeErrLog excMsg)], false)
    else ([.browserClose], false)
  else ([], false)

/-! ## Login flow (`login_to_gmail`, lines 114-175) -/

inductive LoginOutcome
  | success
  | challengeRequired
  | failed
deriving DecidableEq

/-- The source returns a bare bool; `success` is the only `True` path. -/
def LoginOutcome.toBool : LoginOutcome → Bool
  | .success => true
  | _ => false

/-- Line 163: `"verify" in current_url.lower() or "challenge" in
page_content.lower()`. -/
def challengeCond (url content : String) : Bool :=
  strContains "verify" (strLower url) || strContains "challenge" (strLower content)

/-- Line 166: `"youtube.com" in current_url or "myaccount.google.com" in
current_url` (note: not lowercased). -/
def alreadyLoggedCond (url : String) : Bool :=
  strContains "youtube.com" url || strContains "myaccount.google.com" url

/-- The timeout disambiguation of lines 158-171, as one classification
function over the observed URL and page content. -/
def disambiguate (url content : String) : LoginOutcome :=
  if challengeCond url content then .challengeRequired
  else if alreadyLoggedCond url then .success
  else .failed

/-- `login_to_gmail`: navigate to the provider, fill identity, fill
secret, race the success signals; on that race's timeout run
`disambiguate`; any exception from the grouped browser calls is caught
by the outer `except` (lines 173-175) and yields `False` (`failed`
here).  Each `...StepOk` oracle covers one wait/fill/click group; the
partial browser commands of a failed group are elided (they are neither
log lines nor store writes). -/
def login_to_gmail (w : World) (email pw : String) : LoginOutcome × List Event :=
  let l0 := [Event.logLine (loginBanner email)]
  if !w.gotoLoginOk then (.failed, l0 ++ [.logLine (gmailFailLog w.excMsg)])
  else
    let l1 := l0 ++ [Event.gotoLogin]
    if !w.emailStepOk then (.failed, l1 ++ [.logLine (gmailFailLog w.excMsg)])
    else
      let l2 := l1 ++ [Event.fillEmail email]
      if !w.passStepOk then (.failed, l2 ++ [.logLine (gmailFailLog w.excMsg)])
      else
        let l3 := l2 ++ [Event.fillPassword pw]
        if w.resultWaitOk then (.success, l3 ++ [.logLine gmailOkLog])
        else
          match disambiguate w.currentUrl w.pageContent with
          | .challengeRequired => (.challengeRequired, l3 ++ [.logLine twoFALog])
          | .success => (.success, l3 ++ [.logLine alreadyAuthLog])
          | .failed => (.failed, l3 ++ [.logLine (ambigLog w.currentUrl)])

/-- `navigate_to_youtube` (lines 177-216): goto the platform, wait for an
account indicator; on its timeout query for a sign-in button — present
means not logged in, absent means assume logged in. -/
def navigate_to_youtube (w : World) : Bool × List Event :=
  let l0 := [Event.logLine navBanner]
  if !w.navGotoOk then (false, l0 ++ [.logLine (navFailLog w.excMsg)])
  else
    let l1 := l0 ++ [Event.gotoYoutube]
    if w.avatarFound then (true, l1 ++ [.logLine ytOkLog])
    else if w.signInFound then (false, l1 ++ [.logLine notLoggedLog])
    else (true, l1 ++ [.logLine assumeLoggedLog])

/-- `extract_and_save_cookies` (lines 218-265): read all cookies, filter
and normalize, then `open(COOKIES_FILE, 'w')` (truncates in place) and
`json.dump`.  A dump that raises leaves the truncated file behind; the
outer `except` converts any raise into `False`. -/
def extract_and_save_cookies (w : World) (st : Store) : RunOut :=
  let l0 := [Event.logLine extractBanner]
  if !w.cookiesReadOk then ⟨false, st, l0 ++ [.logLine (extractFailLog w.excMsg)]⟩
  else if w.cookies.isEmpty then ⟨false, st, l0 ++ [.logLine noCookiesLog]⟩
  else
    let yt := youtubeCookiesOf w.cookies
    if yt.isEmpty then ⟨false, st, l0 ++ [.logLine noYtCookiesLog]⟩
    else if !w.openOk then ⟨false, st, l0 ++ [.logLine (extractFailLog w.excMsg)]⟩
    else if !w.dumpOk then
      ⟨false, some (.truncatedDump yt),
        l0 ++ [.storeOpenTrunc, .logLine (extractFailLog w.excMsg)]⟩
    else
      ⟨true, some (.fullDump yt),
        l0 ++ [.storeOpenTrunc, .storeWrite yt, .logLine (savedLog yt.length)]⟩

/-- `perform_login_and_save_cookies` (lines 267-296): read the two
environment variables, bail out on a falsy one, then run login,
navigation and extraction in sequence, stopping at the first failure. -/
def perform_login_and_save_cookies (w : World) (st : Store) : RunOut :=
  if falsyStr w.email || falsyStr w.password then
    ⟨false, st, [.logLine missingCredLog]⟩
  else
    let email := w.email.getD ""
    let pw := w.password.getD ""
    let lg := login_to_gmail w email pw
    if !lg.1.toBool then ⟨false, st, lg.2⟩
    else
      let nav := navigate_to_youtube w
      if !nav.1 then ⟨false, st, lg.2 ++ nav.2⟩
      else
        let ex := extract_and_save_cookies w st
        ⟨ex.res, ex.store, lg.2 ++ nav.2 ++ ex.evs⟩

/-- `refresh_cookies_async` (lines 299-317): `async with
YouTubeCookieManager()` first runs `start_browser` (the browser is
acquired before any credential check); if that raises, `__aexit__` never
runs and the outer `except` returns `False`.  Otherwise the login/save
pipeline runs, the result is logged, and teardown always runs. -/
def refresh_cookies_async (w : World) (st : Store) : RunOut :=
  if !w.launchOk then
    ⟨false, st, [.logLine (launchFailLog w.excMsg), .logLine (refreshErrLog w.excMsg)]⟩
  else
    let p := perform_login_and_save_cookies w st
    let resultLog := if p.res then refreshOkLog else refreshFailLog
    let close := close_browser true true w.pageCloseRaises w.browserCloseRaises w.excMsg
    ⟨p.res, p.store, .browserLaunch :: (p.evs ++ [.logLine resultLog] ++ close.1)⟩

/-- `refresh_cookies` (lines 320-339): synchronous wrapper; the event
loop plumbing adds no observable behaviour, and its `except` is
unreachable once `refresh_cookies_async` itself never raises. -/
def refresh_cookies (w : World) (st : Store) : RunOut :=
  refresh_cookies_async w st

/-! ## Renewal scheduler (`_refresh_loop`, `start_cookie_refresh_loop`,
`stop_cookie_refresh_loop`, lines 342-386)

The worker's observable actions: invocations of `refresh_cookies`
(which never raises — it returns a bool, supplied here by the oracle
`res`), reads of the `_stop_refresh` flag (the flag's value at the n-th
read is `flag n`, since another thread may set it at any time), and
`time.sleep(60)` ticks.  The outer `while` is unbounded, so traces are
observed up to `fuel` outer iterations. -/

inductive SEvent
  | refreshEv (ok : Bool)
  | checkFlag (v : Bool)
  | sleepTick (secs : Nat)
deriving DecidableEq

/-- `REFRESH_INTERVAL // 60`, the tick count of the inner `for`. -/
def ticksPerInterval : Nat := REFRESH_INTERVAL / 60

/-- The inner `for _ in range(k)` loop (lines 353-356): each iteration
reads the flag (breaking when set) and otherwise sleeps 60 seconds.
Returns the next unused read index and the events. -/
def forTicks (flag : Nat → Bool) : Nat → Nat → Nat × List SEvent
  | r, 0 => (r, [])
  | r, k + 1 =>
    if flag r then (r + 1, [.checkFlag true])
    else
      let rest := forTicks flag (r + 1) k
      (rest.1, .checkFlag false :: .sleepTick 60 :: rest.2)

/-- The `while not _stop_refresh` loop (lines 351-360), reading the flag
at index `r` and performing the `i`-th refresh next. -/
def refreshLoopAux (flag res : Nat → Bool) : Nat → Nat → Nat → List SEvent
  | 0, _, _ => []
  | fuel + 1, r, i =>
    if flag r then [.checkFlag true]
    else
      let t := forTicks flag (r + 1) ticksPerInterval
      if flag t.1 then .checkFlag false :: t.2 ++ [.checkFlag true]
      else
        .checkFlag false :: t.2 ++ [.checkFlag false, .refreshEv (res i)]
          ++ refreshLoopAux flag res fuel (t.1 + 1) (i + 1)

/-- `_refresh_loop` (lines 342-362): one immediate refresh, then the
guarded sleep/refresh loop. -/
def refresh_loop (flag res : Nat → Bool) (fuel : Nat) : List SEvent :=
  .refreshEv (res 0) :: refreshLoopAux flag res fuel 0 1

/-- Closed form of one never-cancelled outer iteration: the `while`
read, `ticksPerInterval` ticks of (read, sleep 60), the pre-refresh
read, the refresh. -/
def unstoppedIter (res : Nat → Bool) (i : Nat) : List SEvent :=
  .checkFlag false
    :: (List.replicate ticksPerInterval [SEvent.checkFlag false, SEvent.sleepTick 60]).flatten
    ++ [.checkFlag false, .refreshEv (res i)]

def unstoppedAux (res : Nat → Bool) : Nat → Nat → List SEvent
  | 0, _ => []
  | fuel + 1, i => unstoppedIter res i ++ unstoppedAux res fuel (i + 1)

/-- Closed form of the whole never-cancelled trace. -/
def unstoppedTrace (res : Nat → Bool) (fuel : Nat) : List SEvent :=
  .refreshEv (res 0) :: unstoppedAux res fuel 1

/-- Forget refresh results, keeping the control-flow skeleton. -/
def scrubRes : SEvent → SEvent
  | .refreshEv _ => .refreshEv true
  | e => e

/-! ### Scheduler start/stop state machine

`{_refresh_thread set?, alive?, _stop_refresh, number of live workers}`;
module-level globals of lines 44-46. -/

structure SchedState where
  threadSet : Bool
  threadAlive : Bool
  stopFlag : Bool
  workers : Nat
deriving DecidableEq

/-- Module load state: no thread object, flag clear. -/
def initSched : SchedState :=
  { threadSet := false, threadAlive := false, stopFlag := false, workers := 0 }

/-- `start_cookie_refresh_loop` (lines 365-376): no-op when the thread
object exists and is alive; otherwise clear the flag and spawn a
worker. -/
def start_cookie_refresh_loop (s : SchedState) : SchedState :=
  if s.threadSet && s.threadAlive then s
  else { threadSet := true, threadAlive := true, stopFlag := false, workers := s.workers + 1 }

/-- `join` timeout of line 385. -/
def stopJoinGrace : Nat := 5

/-- `stop_cookie_refresh_loop` (lines 379-386): set the flag; when a
thread object exists, join it with a 5-second timeout (the second
component is the maximal wait incurred).  Total — no path raises. -/
def stop_cookie_refresh_loop (s : SchedState) : SchedState × Nat :=
  ({ s with stopFlag := true }, if s.threadSet then stopJoinGrace else 0)

/-- Scheduler-level happenings: the two public calls plus the worker
observing the set flag and returning. -/
inductive SchedOp
  | startOp
  | stopOp
  | exitOp
deriving DecidableEq

def schedStep (s : SchedState) : SchedOp → SchedState
  | .startOp => start_cookie_refresh_loop s
  | .stopOp => (stop_cookie_refresh_loop s).1
  | .exitOp =>
    if s.threadAlive && s.stopFlag then
      { s with threadAlive := false, workers := s.workers - 1 }
    else s

def schedRun (ops : List SchedOp) : SchedState := ops.foldl schedStep initSched

/-! ## Concrete fixtures used by counterexamples and witnesses -/

/-- A session cookie on a target domain with every optional field
absent. -/
def ckYt : RawCookie :=
  { name := "SID", value := "v", domain := ".youtube.com"
    path := none, expires := none, httpOnly := none, secure := none, sameSite := none }

/-- A fully successful execution: credentials present, every browser and
filesystem call succeeds, one target-domain cookie observed. -/
def wBase : World :=
  { email := some "alice@example.com"
    password := some "hunter2"
    launchOk := true
    gotoLoginOk := true
    emailStepOk := true
    passStepOk := true
    resultWaitOk := true
    currentUrl := "https://myaccount.google.com/x"
    pageContent := "ok"
    navGotoOk := true
    avatarFound := true
    signInFound := false
    cookiesReadOk := true
    cookies := [ckYt]
    openOk := true
    dumpOk := true
    pageCloseRaises := false
    browserCloseRaises := false
    excMsg := "boom" }

/-! ## General lemmas about the pipeline -/

def isStoreEvent : Event → Bool
  | .storeOpenTrunc => true
  | .storeWrite _ => true
  | _ => false

/-- The store-touching events of a trace. -/
def storeEvents (evs : List Event) : List Event :=
  evs.filter isStoreEvent

def logOf : Event → Option String
  | .logLine s => some s
  | _ => none

/-- The log lines of a trace. -/
def logsOf (evs : List Event) : List String :=
  evs.filterMap logOf

theorem logsOf_append (a b : List Event) : logsOf (a ++ b) = logsOf a ++ logsOf b := by
  simp [logsOf, List.filterMap_append]

theorem storeEvents_append (a b : List Event) :
    storeEvents (a ++ b) = storeEvents a ++ storeEvents b := by
  simp [storeEvents, List.filter_append]

theorem login_storeEvents (w : World) (e p : String) :
    storeEvents (login_to_gmail w e p).2 = [] := by
  unfold login_to_gmail
  split <;> simp_all [storeEvents, isStoreEvent] <;> split <;> simp_all [storeEvents, isStoreEvent] <;>
    split <;> simp_all [storeEvents, isStoreEvent] <;> split <;> simp_all [storeEvents, isStoreEvent] <;>
    split <;> simp_all [storeEvents, isStoreEvent]

theorem navigate_storeEvents (w : World) :
    storeEvents (navigate_to_youtube w).2 = [] := by
  unfold navigate_to_youtube
  split <;> simp_all [storeEvents, isStoreEvent] <;> split <;> simp_all [storeEvents, isStoreEvent] <;>
    split <;> simp_all [storeEvents, isStoreEvent]

/-! ## C8 / C10: the store validity check -/

/-- C8: `check_cookies_file` returns true iff the store file exists,
parses, and the parsed value is a non-empty sequence (a value whose
`len` is defined and positive); a missing file, an empty-array file, a
malformed file, or an I/O failure all yield false, with no exception
propagated (the embedding is a total function). -/
theorem check_cookies_file_iff :
    (∀ f : FileRead, check_cookies_file f = true ↔
        ∃ v n, f = FileRead.parsed v ∧ jsonLen v = some n ∧ 0 < n) ∧
    check_cookies_file .missing = false ∧
    check_cookies_file (.parsed (.arr [])) = false ∧
    check_cookies_file .unparsable = false ∧
    check_cookies_file .ioError = false := by
  refine ⟨?_, rfl, by decide, rfl, rfl⟩
  intro f
  cases f with
  | missing => simp [check_cookies_file]
  | ioError => simp [check_cookies_file]
  | unparsable => simp [check_cookies_file]
  | parsed v =>
    cases v <;> simp [check_cookies_file, jsonLen]

/-- Witness for `check_cookies_file_iff` at a one-element array file. -/
theorem check_cookies_file_iff_witness :
    check_cookies_file (.parsed (.arr [.null])) = true :=
  (check_cookies_file_iff.1 (.parsed (.arr [.null]))).2 ⟨.arr [.null], 1, rfl, rfl, Nat.one_pos⟩

/-- C10: validity only asks for a parsed value of positive length — a
non-empty JSON object or a non-empty JSON string also pass; no array
shape or per-cookie field is checked. -/
theorem check_cookies_file_positive_len :
    (∀ (v : Json) (n : Nat), jsonLen v = some n → 0 < n →
      check_cookies_file (.parsed v) = true) ∧
    check_cookies_file (.parsed (.obj [("a", .num 1)])) = true ∧
    check_cookies_file (.parsed (.str "abc")) = true := by
  refine ⟨?_, by decide, by decide⟩
  intro v n h hn
  simp [check_cookies_file, h, hn]

/-- Witness for `check_cookies_file_positive_len` at a JSON string
file. -/
theorem check_cookies_file_positive_len_witness :
    check_cookies_file (.parsed (.str "x")) = true :=
  check_cookies_file_positive_len.1 (.str "x") 1 rfl Nat.one_pos

/-! ## C9: the extractor's domain filter and normalization defaults -/

/-- C9: every entry the extractor persists arises from a session cookie
whose domain contains a configured target-domain substring, keeps that
domain, and gets the defaults `-1` for a missing expiry and
`"no_restriction"` for a missing same-site policy; moreover the only
cookie set ever written is exactly the filtered/normalized one. -/
theorem extractor_target_and_defaults :
    (∀ (cookies : List RawCookie), ∀ c ∈ youtubeCookiesOf cookies,
      ∃ raw, raw ∈ cookies ∧ c = normalizeCookie raw ∧
        targetDomains.any (fun d => strContains d c.domain) = true ∧
        (raw.expires = none → c.expires = -1) ∧
        (raw.sameSite = none → c.sameSite = "no_restriction")) ∧
    (∀ (w : World) (st : Store) (cs : List PersistedCookie),
      Event.storeWrite cs ∈ (extract_and_save_cookies w st).evs →
      cs = youtubeCookiesOf w.cookies) := by
  constructor
  · intro cookies c hc
    unfold youtubeCookiesOf at hc
    obtain ⟨raw, hraw, hmap⟩ := List.mem_map.1 hc
    obtain ⟨hmem, htarget⟩ := List.mem_filter.1 hraw
    refine ⟨raw, hmem, hmap.symm, ?_, ?_, ?_⟩
    · have : c.domain = raw.domain := by rw [← hmap]; rfl
      rw [this]
      exact htarget
    · intro hnone
      rw [← hmap]
      simp [normalizeCookie, hnone]
    · intro hnone
      rw [← hmap]
      simp [normalizeCookie, hnone]
  · intro w st cs hmem
    unfold extract_and_save_cookies at hmem
    repeat' split at hmem
    all_goals simp_all
    all_goals (split at hmem <;> simp_all)

/-- Witness for `extractor_target_and_defaults` on a single
target-domain cookie with all optional fields absent. -/
theorem extractor_target_and_defaults_witness :
    ∃ raw, raw ∈ [ckYt] ∧ normalizeCookie ckYt = normalizeCookie raw ∧
      targetDomains.any (fun d => strContains d (normalizeCookie ckYt).domain) = true ∧
      (raw.expires = none → (normalizeCookie ckYt).expires = -1) ∧
      (raw.sameSite = none → (normalizeCookie ckYt).sameSite = "no_restriction") :=
  extractor_target_and_defaults.1 [ckYt] (normalizeCookie ckYt) (by decide)

theorem LoginOutcome.toBool_eq_true_iff (o : LoginOutcome) : o.toBool = true ↔ o = .success := by
  cases o <;> simp [LoginOutcome.toBool]

theorem close_browser_storeEvents (hp hb pr br : Bool) (m : String) :
    storeEvents (close_browser hp hb pr br m).1 = [] := by
  unfold close_browser
  cases hp <;> cases hb <;> cases pr <;> cases br <;> simp [storeEvents, isStoreEvent]

theorem not_mem_of_storeEvents_nil (evs : List Event) (h : storeEvents evs = []) :
    Event.storeOpenTrunc ∉ evs := by
  intro hmem
  have hm : Event.storeOpenTrunc ∈ storeEvents evs := by
    simp [storeEvents, isStoreEvent, List.mem_filter, hmem]
  rw [h] at hm
  exact (List.not_mem_nil _ hm)

/-- Behaviour of the extractor with respect to the store file: the file
changes only when the truncating open ran, and a `True` result means the
complete dump of a non-empty filtered set is on disk. -/
theorem extract_store_behaviour (w : World) (st : Store) :
    (Event.storeOpenTrunc ∉ (extract_and_save_cookies w st).evs →
      (extract_and_save_cookies w st).store = st) ∧
    ((extract_and_save_cookies w st).res = true →
      (extract_and_save_cookies w st).store
          = some (.fullDump (youtubeCookiesOf w.cookies)) ∧
        youtubeCookiesOf w.cookies ≠ []) := by
  unfold extract_and_save_cookies
  repeat' split
  all_goals simp_all
  all_goals (split <;> simp_all)

/-- Behaviour of the login/navigate/extract pipeline with respect to the
store file. -/
theorem perform_store_behaviour (w : World) (st : Store) :
    (Event.storeOpenTrunc ∉ (perform_login_and_save_cookies w st).evs →
      (perform_login_and_save_cookies w st).store = st) ∧
    (Event.storeOpenTrunc ∈ (perform_login_and_save_cookies w st).evs →
      (login_to_gmail w (w.email.getD "") (w.password.getD "")).1 = .success ∧
        (navigate_to_youtube w).1 = true) ∧
    ((perform_login_and_save_cookies w st).res = true →
      (perform_login_and_save_cookies w st).store
          = some (.fullDump (youtubeCookiesOf w.cookies)) ∧
        youtubeCookiesOf w.cookies ≠ []) := by
  have hlogin := not_mem_of_storeEvents_nil _
    (login_storeEvents w (w.email.getD "") (w.password.getD ""))
  have hnav := not_mem_of_storeEvents_nil _ (navigate_storeEvents w)
  have hex := extract_store_behaviour w st
  simp only [perform_login_and_save_cookies]
  split
  · exact ⟨fun _ => rfl, fun hm => absurd hm (by simp), by simp⟩
  · split
    · exact ⟨fun _ => rfl, fun hm => absurd hm hlogin, by simp⟩
    · next hlb =>
      split
      · refine ⟨fun _ => rfl, ?_, by simp⟩
        intro hm
        rw [List.mem_append] at hm
        exact absurd (hm.resolve_left hlogin) hnav
      · next hnb =>
        refine ⟨?_, ?_, ?_⟩
        · intro hni
          simp only [List.mem_append] at hni
          push_neg at hni
          exact hex.1 hni.2
        · intro _
          constructor
          · have hb : (login_to_gmail w (w.email.getD "") (w.password.getD "")).1.toBool
                = true := by simpa using hlb
            exact (LoginOutcome.toBool_eq_true_iff _).1 hb
          · simpa using hnb
        · intro hres
          exact hex.2 hres

/-- `refresh_cookies_async` after a successful launch, written in terms
of its three stages. -/
theorem refresh_unfold (w : World) (st : Store) (h : w.launchOk = true) :
    refresh_cookies_async w st =
      ⟨(perform_login_and_save_cookies w st).res,
        (perform_login_and_save_cookies w st).store,
        .browserLaunch :: ((perform_login_and_save_cookies w st).evs
          ++ [.logLine (if (perform_login_and_save_cookies w st).res then refreshOkLog
                        else refreshFailLog)]
          ++ (close_browser true true w.pageCloseRaises w.browserCloseRaises w.excMsg).1)⟩ := by
  unfold refresh_cookies_async
  simp [h]

/-- The truncating open is observable in the refresh trace exactly when
the pipeline performed it. -/
theorem refresh_storeOpenTrunc_mem (w : World) (st : Store) (h : w.launchOk = true) :
    (Event.storeOpenTrunc ∈ (refresh_cookies_async w st).evs ↔
      Event.storeOpenTrunc ∈ (perform_login_and_save_cookies w st).evs) := by
  have hclose := not_mem_of_storeEvents_nil _
    (close_browser_storeEvents true true w.pageCloseRaises w.browserCloseRaises w.excMsg)
  rw [refresh_unfold w st h]
  simp only [List.mem_cons, List.mem_append, List.mem_singleton]
  constructor
  · rintro (h1 | (h1 | h1) | h1)
    · exact absurd h1 (by simp)
    · exact h1
    · exact absurd h1 (by simp)
    · exact absurd h1 hclose
  · intro h1
    exact Or.inr (Or.inl (Or.inl h1))

theorem close_browser_no_gotoLogin (hp hb pr br : Bool) (m : String) :
    Event.gotoLogin ∉ (close_browser hp hb pr br m).1 := by
  unfold close_browser
  cases hp <;> cases hb <;> cases pr <;> cases br <;> simp

/-! ## C1: behaviour of `refresh()` under missing credentials -/

/-- C1 counterexample: with the identity variable unset and a healthy
browser layer, `refresh()` returns false, yet the browser launch is an
observable side effect of that very call — the session handle is
acquired by the context manager before the credential check runs. -/
theorem refresh_missing_cred_cex :
    (refresh_cookies_async { wBase with email := none } none).res = false ∧
    Event.browserLaunch ∈ (refresh_cookies_async { wBase with email := none } none).evs := by
  decide

/-- C1 amended: with the identity or secret variable unset (or empty),
`refresh()` returns false, leaves the store byte-for-byte untouched and
performs no login navigation and no store access — but the browser is
acquired before the credential check, so whenever the launch itself
succeeds the browser-acquire side effect is observable. -/
theorem refresh_missing_cred_amended (w : World) (st : Store)
    (h : (falsyStr w.email || falsyStr w.password) = true) :
    (refresh_cookies_async w st).res = false ∧
    (refresh_cookies_async w st).store = st ∧
    Event.gotoLogin ∉ (refresh_cookies_async w st).evs ∧
    storeEvents (refresh_cookies_async w st).evs = [] ∧
    (w.launchOk = true → Event.browserLaunch ∈ (refresh_cookies_async w st).evs) := by
  cases hl : w.launchOk with
  | false =>
    unfold refresh_cookies_async
    simp [hl, storeEvents, isStoreEvent]
  | true =>
    have hp : perform_login_and_save_cookies w st
        = ⟨false, st, [.logLine missingCredLog]⟩ := by
      unfold perform_login_and_save_cookies
      simp [h]
    have hcs := close_browser_storeEvents true true w.pageCloseRaises w.browserCloseRaises w.excMsg
    have hcg := close_browser_no_gotoLogin true true w.pageCloseRaises w.browserCloseRaises w.excMsg
    rw [refresh_unfold w st hl, hp]
    refine ⟨rfl, rfl, ?_, ?_, fun _ => by simp⟩
    · simp only [List.mem_cons, List.mem_append, List.mem_singleton]
      rintro (h1 | (h1 | h1) | h1) <;> first
        | exact absurd h1 (by simp)
        | exact absurd h1 hcg
    · simp only [storeEvents, List.filter_cons, List.filter_append]
      simp only [storeEvents] at hcs
      simp [hcs, isStoreEvent]

/-- Witness for `refresh_missing_cred_amended`: the store stays `none`
with the identity unset. -/
theorem refresh_missing_cred_amended_witness :
    (refresh_cookies_async { wBase with email := none } none).store = none :=
  (refresh_missing_cred_amended { wBase with email := none } none (by decide)).2.1

theorem refresh_storeEvents (w : World) (st : Store) (h : w.launchOk = true) :
    storeEvents (refresh_cookies_async w st).evs
      = storeEvents (perform_login_and_save_cookies w st).evs := by
  rw [refresh_unfold w st h]
  have hcs := close_browser_storeEvents true true w.pageCloseRaises w.browserCloseRaises w.excMsg
  simp only [storeEvents, List.filter_cons, List.filter_append] at *
  simp [hcs, isStoreEvent]

/-! ## C2: store writes happen only after full success, but not atomically -/

/-- C2 counterexample: with a prior store file present and a `json.dump`
that raises after `open(COOKIES_FILE, 'w')` already truncated the file
in place, `refresh()` returns false yet the prior file is destroyed —
the observable store is the truncated remains, not the prior bytes and
not a fresh valid file. -/
theorem refresh_write_not_atomic_cex :
    (refresh_cookies_async { wBase with dumpOk := false } (some (.raw "old"))).res = false ∧
    (refresh_cookies_async { wBase with dumpOk := false } (some (.raw "old"))).store
      ≠ some (.raw "old") ∧
    (refresh_cookies_async { wBase with dumpOk := false } (some (.raw "old"))).store
      = some (.truncatedDump (youtubeCookiesOf [ckYt])) := by
  decide

/-- C2 amended: the store is touched only after login and navigation
both fully succeeded (a trace without the truncating open leaves the
prior file byte-for-byte untouched, and any store access implies login
returned success and navigation returned true), and a true result
guarantees a fresh complete dump of a non-empty cookie set; but the
write is an in-place truncate-then-write, so a failing write can leave
a truncated file in place of the prior contents. -/
theorem refresh_write_after_success_amended (w : World) (st : Store) :
    (Event.storeOpenTrunc ∉ (refresh_cookies_async w st).evs →
      (refresh_cookies_async w st).store = st) ∧
    (Event.storeOpenTrunc ∈ (refresh_cookies_async w st).evs →
      (login_to_gmail w (w.email.getD "") (w.password.getD "")).1 = .success ∧
        (navigate_to_youtube w).1 = true) ∧
    ((refresh_cookies_async w st).res = true →
      (refresh_cookies_async w st).store = some (.fullDump (youtubeCookiesOf w.cookies)) ∧
        youtubeCookiesOf w.cookies ≠ []) := by
  cases hl : w.launchOk with
  | false =>
    unfold refresh_cookies_async
    simp [hl]
  | true =>
    have hpb := perform_store_behaviour w st
    have hmemiff := refresh_storeOpenTrunc_mem w st hl
    refine ⟨?_, ?_, ?_⟩
    · intro hni
      rw [refresh_unfold w st hl]
      exact hpb.1 (fun hm => hni (hmemiff.2 hm))
    · intro hm
      exact hpb.2.1 (hmemiff.1 hm)
    · intro hres
      rw [refresh_unfold w st hl] at hres ⊢
      exact hpb.2.2 hres

/-- Witness for `refresh_write_after_success_amended` on the fully
successful execution. -/
theorem refresh_write_after_success_amended_witness :
    (refresh_cookies_async wBase none).store
        = some (.fullDump (youtubeCookiesOf wBase.cookies)) ∧
      youtubeCookiesOf wBase.cookies ≠ [] :=
  (refresh_write_after_success_amended wBase none).2.2 (by decide)

/-! ## C3: challenge-check precedence and its effect on `refresh()` -/

/-- C3: on the step-4 timeout the disambiguation gives the
verification/challenge check precedence (it fires even when the URL
also indicates the platform domain), then the account/platform-domain
check yields success, else failure; and whenever the login flow
classifies the state as challenge-required, `refresh()` returns false
with the store untouched and no store access in the trace. -/
theorem login_challenge_precedence (url content : String) (w : World) (st : Store) :
    (challengeCond url content = true → disambiguate url content = .challengeRequired) ∧
    (challengeCond url content = false → alreadyLoggedCond url = true →
      disambiguate url content = .success) ∧
    (challengeCond url content = false → alreadyLoggedCond url = false →
      disambiguate url content = .failed) ∧
    ((login_to_gmail w (w.email.getD "") (w.password.getD "")).1 = .challengeRequired →
      (refresh_cookies_async w st).res = false ∧
      (refresh_cookies_async w st).store = st ∧
      storeEvents (refresh_cookies_async w st).evs = []) := by
  refine ⟨?_, ?_, ?_, ?_⟩
  · intro h
    simp [disambiguate, h]
  · intro h1 h2
    simp [disambiguate, h1, h2]
  · intro h1 h2
    simp [disambiguate, h1, h2]
  · intro hch
    have hperf : (perform_login_and_save_cookies w st).res = false ∧
        (perform_login_and_save_cookies w st).store = st ∧
        storeEvents (perform_login_and_save_cookies w st).evs = [] := by
      simp only [perform_login_and_save_cookies]
      split
      · simp [storeEvents, isStoreEvent]
      · have hb : (login_to_gmail w (w.email.getD "") (w.password.getD "")).1.toBool
            = false := by rw [hch]; rfl
        simp [hb, login_storeEvents]
    cases hl : w.launchOk with
    | false =>
      unfold refresh_cookies_async
      simp [hl, storeEvents, isStoreEvent]
    | true =>
      refine ⟨?_, ?_, ?_⟩
      · rw [refresh_unfold w st hl]
        exact hperf.1
      · rw [refresh_unfold w st hl]
        exact hperf.2.1
      · rw [refresh_storeEvents w st hl]
        exact hperf.2.2

/-- Witness for `login_challenge_precedence`: a run whose success race
times out on a page whose content carries a challenge marker. -/
theorem login_challenge_precedence_witness :
    (refresh_cookies_async
        { wBase with resultWaitOk := false, currentUrl := "u", pageContent := "challenge" }
        none).res = false ∧
      (refresh_cookies_async
        { wBase with resultWaitOk := false, currentUrl := "u", pageContent := "challenge" }
        none).store = none ∧
      storeEvents (refresh_cookies_async
        { wBase with resultWaitOk := false, currentUrl := "u", pageContent := "challenge" }
        none).evs = [] :=
  (login_challenge_precedence "u" "challenge"
    { wBase with resultWaitOk := false, currentUrl := "u", pageContent := "challenge" }
    none).2.2.2 (by decide)

/-! ## C6: teardown never propagates, but does not always attempt both
sub-releases -/

/-- C6 counterexample: with both page and browser present, a raising
page close jumps straight to the single `except` handler — the browser
close is never attempted (no `browserClose` event), though nothing
propagates. -/
theorem close_browser_skips_second_cex :
    Event.browserClose ∉ (close_browser true true true false "boom").1 ∧
    (close_browser true true true false "boom").2 = false ∧
    (close_browser true true true false "boom").1
      = [.pageClose, .logLine (closeErrLog "boom")] := by
  decide

/-- C6 amended: `release()` never propagates a teardown failure, and it
attempts the page close first and then the browser close when the page
close does not raise; but both sub-releases sit in one `try`, so a
raising page close ends the teardown and the browser close is skipped. -/
theorem close_browser_no_propagate_amended (hp hb pr br : Bool) (m : String) :
    (close_browser hp hb pr br m).2 = false ∧
    (hp = true → hb = true → pr = false → br = false →
      (close_browser hp hb pr br m).1 = [.pageClose, .browserClose]) ∧
    (hp = true → hb = true → pr = false → br = true →
      (close_browser hp hb pr br m).1
        = [.pageClose, .browserClose, .logLine (closeErrLog m)]) ∧
    (hp = true → pr = true →
      Event.browserClose ∉ (close_browser hp hb pr br m).1) := by
  unfold close_browser
  cases hp <;> cases hb <;> cases pr <;> cases br <;> simp

/-- Witness for `close_browser_no_propagate_amended`: the clean teardown
closes page then browser. -/
theorem close_browser_no_propagate_amended_witness :
    (close_browser true true false false "boom").1 = [.pageClose, .browserClose] :=
  (close_browser_no_propagate_amended true true false false "boom").2.1 rfl rfl rfl rfl

/-! ## C7: what the credentials can reach -/

theorem login_upd (w : World) (a b : Option String) (em pw : String) :
    login_to_gmail { w with email := a, password := b } em pw = login_to_gmail w em pw := rfl

theorem nav_upd (w : World) (a b : Option String) :
    navigate_to_youtube { w with email := a, password := b } = navigate_to_youtube w := rfl

theorem extract_upd (w : World) (a b : Option String) (st : Store) :
    extract_and_save_cookies { w with email := a, password := b } st
      = extract_and_save_cookies w st := rfl

/-- The login flow's outcome ignores both credential strings, and its
log output ignores the secret (though not the identity, which the
banner line interpolates). -/
theorem login_cred_indep (w : World) (em em' pw pw' : String) :
    (login_to_gmail w em pw).1 = (login_to_gmail w em' pw').1 ∧
    (em = em' → logsOf (login_to_gmail w em pw).2 = logsOf (login_to_gmail w em' pw').2) := by
  unfold login_to_gmail
  repeat' split
  all_goals simp_all [logsOf, logOf]

/-- The pipeline's result and final store ignore the credential values
(for non-falsy credentials), and its log output ignores the secret. -/
theorem perform_cred_indep (w : World) (st : Store) (e e' p p' : String)
    (he : e ≠ "") (he' : e' ≠ "") (hp : p ≠ "") (hp' : p' ≠ "") :
    (perform_login_and_save_cookies { w with email := some e, password := some p } st).res
      = (perform_login_and_save_cookies { w with email := some e', password := some p' } st).res ∧
    (perform_login_and_save_cookies { w with email := some e, password := some p } st).store
      = (perform_login_and_save_cookies { w with email := some e', password := some p' } st).store ∧
    (e = e' →
      logsOf (perform_login_and_save_cookies { w with email := some e, password := some p } st).evs
        = logsOf (perform_login_and_save_cookies
            { w with email := some e', password := some p' } st).evs) := by
  have hl := login_cred_indep w e e' p p'
  have hfe : falsyStr (some e) = false := by simp [falsyStr, he]
  have hfe' : falsyStr (some e') = false := by simp [falsyStr, he']
  have hfp : falsyStr (some p) = false := by simp [falsyStr, hp]
  have hfp' : falsyStr (some p') = false := by simp [falsyStr, hp']
  simp only [perform_login_and_save_cookies, login_upd, nav_upd, extract_upd]
  simp only [hfe, hfe', hfp, hfp', Bool.or_false, Bool.false_or, Bool.false_eq_true, if_false,
    Option.getD_some]
  rw [← hl.1]
  refine ⟨?_, ?_, fun hem => ?_⟩
  · repeat' split
    all_goals simp_all
  · repeat' split
    all_goals simp_all
  · have hlg := hl.2 hem
    repeat' split
    all_goals simp_all [logsOf_append, hlg]

/-- C7 counterexample: line 126 of the source interpolates the identity
string into the login banner — the diagnostic output of a credentialed
run contains the email verbatim, so the identity IS written to log
output. -/
theorem identity_logged_cex :
    Event.logLine (loginBanner "alice@example.com") ∈ (refresh_cookies_async wBase none).evs ∧
    strContains "alice@example.com" (loginBanner "alice@example.com") = true := by
  decide

/-- C7 amended: the secret is read at call time and reaches neither the
store nor the log output (result, final store and log lines of a
credentialed run are invariant under changing the secret value, and
result and store are invariant under changing the identity too) — but
the identity string is written to diagnostic output by the login
banner. -/
theorem secret_never_output_amended (w : World) (st : Store) (e e' p p' : String)
    (he : e ≠ "") (he' : e' ≠ "") (hp : p ≠ "") (hp' : p' ≠ "") :
    (refresh_cookies_async { w with email := some e, password := some p } st).res
      = (refresh_cookies_async { w with email := some e', password := some p' } st).res ∧
    (refresh_cookies_async { w with email := some e, password := some p } st).store
      = (refresh_cookies_async { w with email := some e', password := some p' } st).store ∧
    (e = e' →
      logsOf (refresh_cookies_async { w with email := some e, password := some p } st).evs
        = logsOf (refresh_cookies_async
            { w with email := some e', password := some p' } st).evs) := by
  have hperf := perform_cred_indep w st e e' p p' he he' hp hp'
  simp only [refresh_cookies_async]
  refine ⟨?_, ?_, fun hem => ?_⟩
  · split
    · rfl
    · exact hperf.1
  · split
    · rfl
    · exact hperf.2.1
  · have hlogs := hperf.2.2 hem
    split
    · rfl
    · simp [logsOf, logOf, List.filterMap_append, hperf.1]
      have := hlogs
      simp only [logsOf] at this
      simp [this]

/-- Witness for `secret_never_output_amended`: same identity, two
different secrets, identical log output. -/
theorem secret_never_output_amended_witness :
    logsOf (refresh_cookies_async
        { wBase with email := some "alice@example.com", password := some "hunter2" } none).evs
      = logsOf (refresh_cookies_async
        { wBase with email := some "alice@example.com", password := some "pw2" } none).evs :=
  (secret_never_output_amended wBase none "alice@example.com" "alice@example.com"
    "hunter2" "pw2" (by decide) (by decide) (by decide) (by decide)).2.2 rfl

/-! ## C4: the worker's schedule -/

theorem forTicks_const_false (k r : Nat) :
    forTicks (fun _ => false) r k
      = (r + k, (List.replicate k [SEvent.checkFlag false, SEvent.sleepTick 60]).flatten) := by
  induction k generalizing r with
  | zero => simp [forTicks]
  | succ k ih =>
    simp [forTicks, ih, List.replicate_succ]
    omega

theorem refreshLoopAux_const_false (res : Nat → Bool) (fuel r i : Nat) :
    refreshLoopAux (fun _ => false) res fuel r i = unstoppedAux res fuel i := by
  induction fuel generalizing r i with
  | zero => rfl
  | succ fuel ih =>
    simp only [refreshLoopAux, unstoppedAux, unstoppedIter]
    rw [forTicks_const_false]
    simp [ih, List.append_assoc]

theorem forTicks_sleep_bound (flag : Nat → Bool) (k r n : Nat)
    (h : SEvent.sleepTick n ∈ (forTicks flag r k).2) : n = 60 := by
  induction k generalizing r with
  | zero => simp [forTicks] at h
  | succ k ih =>
    unfold forTicks at h
    split at h
    · simp at h
    · simp only [List.mem_cons] at h
      rcases h with h | h | h
      · cases h
      · cases h
        rfl
      · exact ih (r + 1) h

theorem refreshLoopAux_sleep_bound (flag res : Nat → Bool) (fuel r i n : Nat)
    (h : SEvent.sleepTick n ∈ refreshLoopAux flag res fuel r i) : n = 60 := by
  induction fuel generalizing r i with
  | zero => simp [refreshLoopAux] at h
  | succ fuel ih =>
    unfold refreshLoopAux at h
    split at h
    · simp at h
    · dsimp only at h
      split at h
      · rcases List.mem_cons.1 h with h | h
        · exact absurd h (by simp)
        · rcases List.mem_append.1 h with h | h
          · exact forTicks_sleep_bound flag _ _ n h
          · simp at h
      · rcases List.mem_cons.1 h with h | h
        · exact absurd h (by simp)
        · rcases List.mem_append.1 h with h | h
          · rcases List.mem_append.1 h with h | h
            · exact forTicks_sleep_bound flag _ _ n h
            · simp at h
          · exact ih _ _ h

theorem refreshLoopAux_scrub (flag res res' : Nat → Bool) (fuel r i : Nat) :
    (refreshLoopAux flag res fuel r i).map scrubRes
      = (refreshLoopAux flag res' fuel r i).map scrubRes := by
  induction fuel generalizing r i with
  | zero => rfl
  | succ fuel ih =>
    unfold refreshLoopAux
    split
    · rfl
    · dsimp only
      split
      · rfl
      · simp [List.map_append, scrubRes, ih]

/-- Once the worker observes the cancellation flag set, the remaining
trace contains no refresh invocation. -/
theorem refreshLoopAux_stopped (flag res : Nat → Bool) (fuel r i : Nat)
    (h : flag r = true) (b : Bool) :
    SEvent.refreshEv b ∉ refreshLoopAux flag res fuel r i := by
  cases fuel
  · simp [refreshLoopAux]
  · simp [refreshLoopAux, h]

/-- C4: the worker, once started, performs one refresh immediately (it
is the head of every trace); every sleep in any trace is a 60-second
tick (the sleep toward the 12-hour interval happens in bounded
one-minute increments, the flag being read before every tick); when
never cancelled, the trace is exactly refresh followed by repetitions
of [while-read, `ticksPerInterval` times (flag-read, 60 s sleep),
flag-read, refresh]; and the control-flow skeleton is identical for any
two result oracles — a refresh invocation that fails never terminates
the loop. -/
theorem refresh_loop_schedule (flag res res' : Nat → Bool) (fuel : Nat) :
    (refresh_loop flag res fuel).head? = some (.refreshEv (res 0)) ∧
    (∀ n, SEvent.sleepTick n ∈ refresh_loop flag res fuel → n = 60) ∧
    refresh_loop (fun _ => false) res fuel = unstoppedTrace res fuel ∧
    (refresh_loop flag res fuel).map scrubRes
      = (refresh_loop flag res' fuel).map scrubRes := by
  refine ⟨rfl, ?_, ?_, ?_⟩
  · intro n h
    simp only [refresh_loop, List.mem_cons] at h
    rcases h with h | h
    · cases h
    · exact refreshLoopAux_sleep_bound flag res fuel 0 1 n h
  · simp only [refresh_loop, unstoppedTrace, refreshLoopAux_const_false]
  · simp only [refresh_loop, List.map_cons, scrubRes]
    rw [refreshLoopAux_scrub flag res res' fuel 0 1]

/-- Witness for `refresh_loop_schedule`: with every refresh failing and
no cancellation, the observed trace still matches the schedule. -/
theorem refresh_loop_schedule_witness :
    refresh_loop (fun _ => false) (fun _ => false) 0 = unstoppedTrace (fun _ => false) 0 :=
  (refresh_loop_schedule (fun _ => false) (fun _ => false) (fun _ => true) 0).2.2.1

/-! ## C5: scheduler start/stop semantics -/

/-- Reachability invariant of the scheduler state: the live-worker count
matches liveness, and a live worker implies a thread object exists. -/
def schedInv (s : SchedState) : Prop :=
  s.workers = (if s.threadAlive then 1 else 0) ∧ (s.threadAlive = true → s.threadSet = true)

theorem schedStep_inv (s : SchedState) (op : SchedOp) (h : schedInv s) :
    schedInv (schedStep s op) := by
  obtain ⟨h1, h2⟩ := h
  cases op with
  | startOp =>
    simp only [schedStep, start_cookie_refresh_loop]
    split
    · exact ⟨h1, h2⟩
    · next hc =>
      have ha : s.threadAlive = false := by
        cases hs : s.threadSet <;> cases hal : s.threadAlive <;> simp_all
      refine ⟨?_, fun _ => rfl⟩
      simp [h1, ha]
  | stopOp =>
    exact ⟨h1, h2⟩
  | exitOp =>
    simp only [schedStep]
    split
    · next hc =>
      have : s.threadAlive = true := by
        cases hal : s.threadAlive <;> simp_all
      refine ⟨?_, by simp⟩
      simp [h1, this]
    · exact ⟨h1, h2⟩

theorem schedFoldl_inv (ops : List SchedOp) (s : SchedState) (h : schedInv s) :
    schedInv (List.foldl schedStep s ops) := by
  induction ops generalizing s with
  | nil => exact h
  | cons op ops ih => exact ih _ (schedStep_inv s op h)

/-- C5: `start()` while a live worker exists is a no-op, and
`start(); start()` ends in the same state as a single `start()` (one
worker, never two loops); along every sequence of
start/stop/worker-exit happenings the number of live workers never
exceeds one; `stop()` before any `start()` merely sets the cancellation
flag, waits nothing, and returns normally; any `stop()` just sets the
flag and waits at most the 5-second join grace; and once the worker
reads the set flag, no further refresh invocation appears in its
trace. -/
theorem scheduler_start_stop (ops : List SchedOp) (s : SchedState)
    (flag res : Nat → Bool) (fuel r i : Nat) :
    (s.threadSet = true → s.threadAlive = true → start_cookie_refresh_loop s = s) ∧
    schedRun [SchedOp.startOp, SchedOp.startOp] = schedRun [SchedOp.startOp] ∧
    (schedRun ops).workers ≤ 1 ∧
    stop_cookie_refresh_loop initSched = ({ initSched with stopFlag := true }, 0) ∧
    (stop_cookie_refresh_loop s).1 = { s with stopFlag := true } ∧
    (stop_cookie_refresh_loop s).2 ≤ stopJoinGrace ∧
    (flag r = true → ∀ b, SEvent.refreshEv b ∉ refreshLoopAux flag res fuel r i) := by
  refine ⟨?_, rfl, ?_, rfl, rfl, ?_, ?_⟩
  · intro h1 h2
    simp [start_cookie_refresh_loop, h1, h2]
  · have hinv := schedFoldl_inv ops initSched (by simp [schedInv, initSched])
    obtain ⟨h1, _⟩ := hinv
    unfold schedRun
    rw [h1]
    split <;> omega
  · simp only [stop_cookie_refresh_loop]
    split <;> simp [stopJoinGrace]
  · intro h b
    exact refreshLoopAux_stopped flag res fuel r i h b

/-- Witness for `scheduler_start_stop`: a second `start()` on the
running single-worker state returns it unchanged. -/
theorem scheduler_start_stop_witness :
    start_cookie_refresh_loop
        { threadSet := true, threadAlive := true, stopFlag := false, workers := 1 }
      = { threadSet := true, threadAlive := true, stopFlag := false, workers := 1 } :=
  (scheduler_start_stop []
    { threadSet := true, threadAlive := true, stopFlag := false, workers := 1 }
    (fun _ => true) (fun _ => true) 0 0 0).1 rfl rfl
